import Mathlib

/-!
# Chat controller (`static/js/app.js`): embedding and verified properties

The script is DOM event wiring around two `fetch` calls.  The page is modelled
as a record (`State`) holding exactly the DOM properties the script reads or
writes; every function of the script becomes a Lean function on that record.
Values that reach the script from `response.json()` are untyped, so they are
modelled as JSON values (`JSValue`) together with the fragments of the
JavaScript conversion rules the script exercises on them (truthiness,
`ToString`, property reads, `x.length > 0`).  Exceptions are explicit:
an operation returns the state it reached together with `Except Thrown _`.

Conventions of the embedding:

* `sendMessage` and `loadDocuments` are `async`; they are modelled run to
  completion, with the outcome of the request and the value of `Date.now()` as
  arguments, and with no other event handled between the request and its
  outcome.
* Strings are Lean strings.
* The state carries a trace of the effects whose order the properties speak
  about (requests, changes of the transcript and of the send control).  The
  script never reads it.
* `Source` and `Document` describe well-formed entries of the wire format; the
  functions themselves accept any JSON value.
-/

namespace App

/-! ## JavaScript values -/

/-- A JSON number.  The script never computes with numbers received from the
server; it only tests them for truthiness, compares a `length` with zero and
converts them to text, so a number is represented by those three observations. -/
structure JSNumber where
  /-- The number is `+0` or `-0` (the only falsy numbers `JSON.parse` yields). -/
  zero : Bool
  /-- The number is greater than zero. -/
  positive : Bool
  /-- Its `ToString` image. -/
  text : String

/-- Values produced by `response.json()`. -/
inductive JSValue where
  | null
  | bool (b : Bool)
  | num (n : JSNumber)
  | str (s : String)
  | arr (items : List JSValue)
  | obj (fields : List (String × JSValue))

/-- The run-time `TypeError`s the script can provoke. -/
inductive TypeErrorKind where
  /-- Reading property `prop` of `null`. -/
  | readNull (prop : String)
  /-- Calling `callee`, which is not a function. -/
  | notCallable (callee : String)
  /-- An object without a usable `toString`/`valueOf` is converted to a primitive. -/
  | toPrimitive
  deriving DecidableEq

/-- What a `catch` clause can receive. -/
inductive Thrown where
  /-- The rejection reason of `fetch` or of `response.json()`, by its `message`. -/
  | rejection (message : String)
  /-- A `TypeError` raised by the engine while the script runs. -/
  | typeError (kind : TypeErrorKind)
  deriving DecidableEq

/-- The parts of the JavaScript engine that the source does not fix. -/
structure Engine where
  /-- Whether `ToNumber(s) > 0` for a string `s`. -/
  strPositive : String → Bool
  /-- The `message` of an engine-raised `TypeError`. -/
  typeErrorMessage : TypeErrorKind → String
  /-- The `ToString` image of the built-in function inherited from
  `Object.prototype` under the given property name. -/
  functionText : String → String

/-- The value of `error.message` in a `catch` clause. -/
def Thrown.message (E : Engine) : Thrown → String
  | .rejection m => m
  | .typeError k => E.typeErrorMessage k

/-- Own-property lookup in a parsed JSON object. -/
def lookup (key : String) : List (String × JSValue) → Option JSValue
  | [] => none
  | (k, v) :: rest => if k = key then some v else lookup key rest

/-- JavaScript truthiness (`ToBoolean`) of a JSON value. -/
def JSValue.truthy : JSValue → Bool
  | .null => false
  | .bool b => b
  | .num n => !n.zero
  | .str s => s ≠ ""
  | .arr _ => true
  | .obj _ => true

/-- Truthiness of a possibly `undefined` value. -/
def truthy? : Option JSValue → Bool
  | none => false
  | some v => v.truthy

mutual
/-- JavaScript `ToString` of a JSON value.  Arrays go through
`Array.prototype.join`; a plain object yields `[object Object]` unless its own
(non-callable) `toString` property shadows `Object.prototype.toString`, in
which case the conversion raises a `TypeError`. -/
def JSValue.toStr : JSValue → Except Thrown String
  | .null => .ok "null"
  | .bool b => .ok (if b then "true" else "false")
  | .num n => .ok n.text
  | .str s => .ok s
  | .arr items => joinItems items
  | .obj fields =>
    match lookup "toString" fields with
    | some _ => .error (.typeError .toPrimitive)
    | none => .ok "[object Object]"
/-- The method `Array.prototype.join` with the default separator: `null` elements give the
empty string. -/
def joinItems : List JSValue → Except Thrown String
  | [] => .ok ""
  | [x] => elemStr x
  | x :: y :: rest =>
    match elemStr x with
    | .error e => .error e
    | .ok a =>
      match joinItems (y :: rest) with
      | .error e => .error e
      | .ok b => .ok (a ++ "," ++ b)
/-- The text of one array element inside `join`. -/
def elemStr : JSValue → Except Thrown String
  | .null => .ok ""
  | .bool b => .ok (if b then "true" else "false")
  | .num n => .ok n.text
  | .str s => .ok s
  | .arr items => joinItems items
  | .obj fields =>
    match lookup "toString" fields with
    | some _ => .error (.typeError .toPrimitive)
    | none => .ok "[object Object]"
end

/-- A read of `v.key` for the fixed keys the script uses on server data (`success`,
`response`, `sources`, `error`, `title`, `content`, `documents`, `name`).  None
of them is defined on a built-in prototype, so only `null` (which throws) and
own properties of objects matter; `none` is `undefined`. -/
def getField (v : JSValue) (key : String) : Except Thrown (Option JSValue) :=
  match v with
  | .null => .error (.typeError (.readNull key))
  | .obj fields => .ok (lookup key fields)
  | _ => .ok none

/-- The comparison `w > 0` for a JSON value `w` (`ToPrimitive` with hint number, then
`ToNumber`). -/
def gtZero (E : Engine) : JSValue → Except Thrown Bool
  | .null => .ok false
  | .bool b => .ok b
  | .num n => .ok n.positive
  | .str s => .ok (E.strPositive s)
  | .arr items =>
    match joinItems items with
    | .error e => .error e
    | .ok t => .ok (E.strPositive t)
  | .obj fields =>
    match lookup "toString" fields with
    | some _ => .error (.typeError .toPrimitive)
    | none => .ok false

/-- The test `v.length > 0`. -/
def lengthPositive (E : Engine) : JSValue → Except Thrown Bool
  | .null => .error (.typeError (.readNull "length"))
  | .bool _ => .ok false
  | .num _ => .ok false
  | .str s => .ok (s ≠ "")
  | .arr items => .ok (!items.isEmpty)
  | .obj fields =>
    match lookup "length" fields with
    | none => .ok false
    | some w => gtZero E w

/-- The test `v.length === 0`. -/
def lengthIsZero : JSValue → Except Thrown Bool
  | .null => .error (.typeError (.readNull "length"))
  | .bool _ => .ok false
  | .num _ => .ok false
  | .str s => .ok (s = "")
  | .arr items => .ok items.isEmpty
  | .obj fields =>
    match lookup "length" fields with
    | some (.num n) => .ok n.zero
    | _ => .ok false

/-- Assignment to `textContent` (a nullable DOM string): `undefined` and `null`
give the empty text, everything else goes through `ToString`. -/
def domText : Option JSValue → Except Thrown String
  | none => .ok ""
  | some .null => .ok ""
  | some v => v.toStr

/-- The white space removed by `String.prototype.trim`: the ECMAScript
`WhiteSpace` and `LineTerminator` code points. -/
def isWhiteSpace (c : Char) : Bool :=
  [0x9, 0xA, 0xB, 0xC, 0xD, 0x20, 0xA0, 0x1680, 0x2028, 0x2029, 0x202F, 0x205F, 0x3000,
    0xFEFF].contains c.toNat || (0x2000 ≤ c.toNat && c.toNat ≤ 0x200A)

/-- The method `String.prototype.trim`. -/
def trim (s : String) : String :=
  ⟨((s.data.dropWhile isWhiteSpace).reverse.dropWhile isWhiteSpace).reverse⟩

/-! ## The page -/

/-- The `type` argument of `addMessage`; it selects the class `user-message` or
`bot-message`. -/
inductive Role where
  | user
  | bot
  deriving DecidableEq

/-- A child of `#chatMessages` created by `addMessage`. -/
structure Bubble where
  /-- The element id, set only on temporary bubbles. -/
  id : Option String
  role : Role
  /-- The `textContent` of the inner `message-content` element. -/
  content : String
  deriving DecidableEq

/-- A `.menu-btn` element. -/
structure MenuButton where
  /-- The value of `dataset.function` (`none` when the attribute is missing). -/
  dataFunction : Option String
  /-- Whether the class list holds `active`. -/
  active : Bool
  deriving DecidableEq

/-- A child of `#sourcesContainer`. -/
inductive SourceNode where
  /-- A `source-item` block: the text of its `h4` and of its `p`. -/
  | item (title content : String)
  /-- A `p.no-sources` paragraph. -/
  | note (text : String)
  deriving DecidableEq

/-- A child of `#documentList`. -/
inductive DocNode where
  /-- A `document-item` row carrying the click listener. -/
  | item (text : String) (selected : Bool)
  /-- A `p.no-sources` paragraph. -/
  | note (text : String)
  deriving DecidableEq

/-- A call of `fetch`.  The body is the object handed to `JSON.stringify`,
whose properties are all strings here. -/
structure Request where
  url : String
  method : String
  headers : List (String × String)
  body : Option (List (String × String))
  deriving DecidableEq

/-- The observable effects whose order matters: network requests, changes of
the transcript and of the send control. -/
inductive Event where
  | request (r : Request)
  | append (b : Bubble)
  | remove (b : Bubble)
  | sendDisabled (value : Bool)
  deriving DecidableEq

/-- The global `currentFunctionType` and the DOM properties the script touches. -/
structure State where
  currentFunctionType : Option String
  menuButtons : List MenuButton
  /-- The `textContent` of `#functionTitle`. -/
  functionTitle : String
  /-- The `textContent` of `#functionDescription`. -/
  functionDescription : String
  /-- The children of `#chatMessages`, in document order. -/
  chatMessages : List Bubble
  /-- The `value` of `#chatInput`. -/
  chatInput : String
  /-- The `placeholder` of `#chatInput`. -/
  placeholder : String
  /-- The `disabled` flag of `#sendBtn`. -/
  sendDisabled : Bool
  documentList : List DocNode
  sourcesContainer : List SourceNode
  /-- The effects performed so far, oldest first (never read by the script). -/
  trace : List Event
  deriving DecidableEq

/-- How a `fetch` followed by `response.json()` can end. -/
inductive FetchOutcome where
  /-- The promise of `fetch` rejects; `message` is the reason's message. -/
  | rejected (message : String)
  /-- The promise of `response.json()` rejects (the body is not JSON). -/
  | unparsable (message : String)
  /-- The body parses to `data`. -/
  | body (data : JSValue)

/-! ## The script -/

/-- The constant `functionDescriptions`. -/
def functionDescriptions : List (String × String) :=
  [("chatbot", "社内文書を参照しながら質問にお答えします"),
   ("daily_report", "音声入力や設備データを日報フォーマットに変換します"),
   ("anomaly_detection", "マルチモーダルな入力データから異常を検知します"),
   ("production_plan", "様々な情報から動的な生産計画を生成します")]

/-- The constant `functionTitles`. -/
def functionTitles : List (String × String) :=
  [("chatbot", "チャットボット"),
   ("daily_report", "日報生成"),
   ("anomaly_detection", "異常検知"),
   ("production_plan", "生産計画")]

/-- The local constant `placeholders` of `updatePlaceholder`. -/
def placeholders : List (String × String) :=
  [("chatbot", "質問を入力してください..."),
   ("daily_report", "音声入力や設備データを入力してください..."),
   ("anomaly_detection", "分析したいデータを入力してください..."),
   ("production_plan", "生産計画に必要な情報を入力してください...")]

/-- The function-valued properties every object literal inherits from
`Object.prototype`. -/
def objectPrototypeFunctions : List String :=
  ["constructor", "hasOwnProperty", "isPrototypeOf", "propertyIsEnumerable",
   "toLocaleString", "toString", "valueOf", "__defineGetter__", "__defineSetter__",
   "__lookupGetter__", "__lookupSetter__"]

/-- The result of `table[key]` on an object literal with string values. -/
inductive Looked where
  /-- An own property. -/
  | own (value : String)
  /-- A function inherited from `Object.prototype`, by its property name. -/
  | builtin (name : String)
  /-- The object `Object.prototype` itself, read through `__proto__`. -/
  | proto
  | undefined
  deriving DecidableEq

/-- The property key for `table[currentFunctionType]`: `undefined` is
converted to the string `"undefined"`. -/
def propertyKey : Option String → String
  | some k => k
  | none => "undefined"

/-- The read `table[key]` on one of the three object literals: own properties
first, then the prototype chain. -/
def tableGet (table : List (String × String)) (key : String) : Looked :=
  match table.lookup key with
  | some v => .own v
  | none =>
    if key = "__proto__" then .proto
    else if objectPrototypeFunctions.contains key then .builtin key
    else .undefined

/-- Truthiness of a looked-up value. -/
def Looked.truthy : Looked → Bool
  | .own v => v ≠ ""
  | .builtin _ => true
  | .proto => true
  | .undefined => false

/-- The `ToString` image of a looked-up value that is not `undefined`. -/
def Looked.text (E : Engine) : Looked → String
  | .own v => v
  | .builtin name => E.functionText name
  | .proto => "[object Object]"
  | .undefined => "undefined"

/-- Assignment of a looked-up value to `textContent`. -/
def Looked.domText (E : Engine) : Looked → String
  | .undefined => ""
  | l => l.text E

/-- The function `updatePlaceholder`. -/
def updatePlaceholder (E : Engine) (s : State) : State :=
  let found := tableGet placeholders (propertyKey s.currentFunctionType)
  { s with placeholder := if found.truthy then found.text E else "メッセージを入力してください..." }

/-- The click listener of the menu button at position `i` of `menuButtons`. -/
def clickMenu (E : Engine) (i : Nat) (s : State) : State :=
  match s.menuButtons[i]? with
  | none => s
  | some btn =>
    -- menuButtons.forEach(b => b.classList.remove('active')); btn.classList.add('active')
    let buttons := (s.menuButtons.map fun b => { b with active := false }).set i
      { btn with active := true }
    -- currentFunctionType = btn.dataset.function
    let s := { s with menuButtons := buttons, currentFunctionType := btn.dataFunction }
    let s := { s with
      functionTitle := (tableGet functionTitles (propertyKey s.currentFunctionType)).domText E }
    let s := { s with
      functionDescription :=
        (tableGet functionDescriptions (propertyKey s.currentFunctionType)).domText E }
    updatePlaceholder E s

/-- The function `addMessage`; `now` is the value of `Date.now()`.  The assignment to
`textContent` comes before `appendChild`, so a failing conversion leaves the
transcript as it was. -/
def addMessage (content : Option JSValue) (type : Role) (isTemporary : Bool) (now : Int)
    (s : State) : State × Except Thrown (Option String) :=
  let id : Option String := if isTemporary then some ("temp-" ++ toString now) else none
  match domText content with
  | .error e => (s, .error e)
  | .ok text =>
    let messageDiv : Bubble := { id := id, role := type, content := text }
    ({ s with chatMessages := s.chatMessages ++ [messageDiv],
              trace := s.trace ++ [.append messageDiv] }, .ok id)

/-- The function `removeMessage`.  The method `getElementById` returns the first element
of the document with the given id (`null` is looked up as `"null"`); the ids of
the static page are the fixed names the script queries, so only bubbles can
carry an id of the form `temp-…`. -/
def removeMessage (id : Option String) (s : State) : State :=
  let key := id.getD "null"
  match s.chatMessages.find? fun b => b.id = some key with
  | none => s
  | some message =>
    { s with chatMessages := s.chatMessages.eraseP fun b => b.id = some key,
             trace := s.trace ++ [.remove message] }

/-- One round of the callback of `sources.forEach` in `displaySources`, up to the
block it appends. -/
def renderSource (source : JSValue) : Except Thrown SourceNode :=
  match getField source "title" with
  | .error e => .error e
  | .ok title =>
    -- title.textContent = source.title || '参照元'
    match domText (if truthy? title then title else some (.str "参照元")) with
    | .error e => .error e
    | .ok titleText =>
      match getField source "content" with
      | .error e => .error e
      | .ok content =>
        -- content.textContent = source.content || source
        match domText (if truthy? content then content else some source) with
        | .error e => .error e
        | .ok contentText => .ok (.item titleText contentText)

/-- The loop `sources.forEach(...)` of `displaySources` over the elements of an array. -/
def appendSources : List JSValue → State → State × Except Thrown Unit
  | [], s => (s, .ok ())
  | source :: rest, s =>
    match renderSource source with
    | .error e => (s, .error e)
    | .ok block => appendSources rest { s with sourcesContainer := s.sourcesContainer ++ [block] }

/-- The function `displaySources`. -/
def displaySources (sources : JSValue) (s : State) : State × Except Thrown Unit :=
  let s := { s with sourcesContainer := [] }
  match lengthIsZero sources with
  | .error e => (s, .error e)
  | .ok true => ({ s with sourcesContainer := [.note "現在、参照元はありません"] }, .ok ())
  | .ok false =>
    match sources with
    | .arr items => appendSources items s
    | _ => (s, .error (.typeError (.notCallable "sources.forEach")))

/-- The request of `sendMessage`.  The method `JSON.stringify` leaves out a property whose
value is `undefined`. -/
def chatRequest (message : String) (functionType : Option String) : Request :=
  { url := "/api/chat"
    method := "POST"
    headers := [("Content-Type", "application/json")]
    body := some (("message", message) ::
      match functionType with
      | some f => [("function_type", f)]
      | none => []) }

/-- The part of the `try` block of `sendMessage` that follows
`removeMessage(loadingId)`: the branch on `data.success`. -/
def sendMessage.render (E : Engine) (now : Int) (data : JSValue) (s : State) :
    State × Except Thrown Unit :=
  match getField data "success" with
  | .error e => (s, .error e)
  | .ok success =>
    if truthy? success then
      match getField data "response" with
      | .error e => (s, .error e)
      | .ok response =>
        match addMessage response .bot false now s with
        | (s, .error e) => (s, .error e)
        | (s, .ok _) =>
          match getField data "sources" with
          | .error e => (s, .error e)
          | .ok none => (s, .ok ())
          | .ok (some sources) =>
            -- if (data.sources && data.sources.length > 0) displaySources(data.sources)
            if sources.truthy then
              match lengthPositive E sources with
              | .error e => (s, .error e)
              | .ok true => displaySources sources s
              | .ok false => (s, .ok ())
            else (s, .ok ())
    else
      match getField data "error" with
      | .error e => (s, .error e)
      | .ok error =>
        -- 'エラーが発生しました: ' + (data.error || '不明なエラー')
        match (match error with
               | some v => if v.truthy then v.toStr else .ok "不明なエラー"
               | none => .ok "不明なエラー") with
        | .error e => (s, .error e)
        | .ok text =>
          match addMessage (some (.str ("エラーが発生しました: " ++ text))) .bot false now s with
          | (s, .error e) => (s, .error e)
          | (s, .ok _) => (s, .ok ())

/-- The `try` block of `sendMessage` from the `fetch` call on, given how the
request ends. -/
def sendMessage.attempt (E : Engine) (now : Int) (loadingId : Option String)
    (outcome : FetchOutcome) (s : State) : State × Except Thrown Unit :=
  match outcome with
  | .rejected m => (s, .error (.rejection m))
  | .unparsable m => (s, .error (.rejection m))
  | .body data => sendMessage.render E now data (removeMessage loadingId s)

/-- The function `sendMessage`, run to completion: `now` is the value of `Date.now()` and
`outcome` is how the request it issues ends. -/
def sendMessage (E : Engine) (now : Int) (outcome : FetchOutcome) (s : State) : State :=
  let message := trim s.chatInput
  if message = "" then s
  else
    match addMessage (some (.str message)) .user false now s with
    | (s, .error _) => s
    | (s, .ok _) =>
      let s := { s with chatInput := "" }
      let s := { s with sendDisabled := true, trace := s.trace ++ [.sendDisabled true] }
      match addMessage (some (.str "考え中...")) .bot true now s with
      | (s, .error _) => s
      | (s, .ok loadingId) =>
        let s := { s with trace := s.trace ++ [.request (chatRequest message s.currentFunctionType)] }
        let s :=
          match sendMessage.attempt E now loadingId outcome s with
          | (s, .ok _) => s
          | (s, .error error) =>
            (addMessage (some (.str ("通信エラーが発生しました: " ++ error.message E))) .bot false now
              (removeMessage loadingId s)).1
        { s with sendDisabled := false, trace := s.trace ++ [.sendDisabled false] }

/-- The loop `data.documents.forEach(...)` of `loadDocuments` over the elements of an array. -/
def appendDocuments : List JSValue → State → State × Except Thrown Unit
  | [], s => (s, .ok ())
  | doc :: rest, s =>
    match getField doc "name" with
    | .error e => (s, .error e)
    | .ok name =>
      -- docDiv.textContent = doc.name
      match domText name with
      | .error e => (s, .error e)
      | .ok text =>
        appendDocuments rest { s with documentList := s.documentList ++ [.item text false] }

/-- The `try` block of `loadDocuments` from the `fetch` call on. -/
def loadDocuments.attempt (E : Engine) (outcome : FetchOutcome) (s : State) :
    State × Except Thrown Unit :=
  match outcome with
  | .rejected m => (s, .error (.rejection m))
  | .unparsable m => (s, .error (.rejection m))
  | .body data =>
    let s := { s with documentList := [] }
    let empty : State := { s with documentList := [.note "ドキュメントがありません"] }
    match getField data "documents" with
    | .error e => (s, .error e)
    | .ok none => (empty, .ok ())
    | .ok (some documents) =>
      -- if (data.documents && data.documents.length > 0)
      if documents.truthy then
        match lengthPositive E documents with
        | .error e => (s, .error e)
        | .ok true =>
          match documents with
          | .arr items => appendDocuments items s
          | _ => (s, .error (.typeError (.notCallable "data.documents.forEach")))
        | .ok false => (empty, .ok ())
      else (empty, .ok ())

/-- The function `loadDocuments`, run to completion. -/
def loadDocuments (E : Engine) (outcome : FetchOutcome) (s : State) : State :=
  let s := { s with trace := s.trace ++
    [.request { url := "/api/documents", method := "GET", headers := [], body := none }] }
  match loadDocuments.attempt E outcome s with
  | (s, .ok _) => s
  | (s, .error _) => { s with documentList := [.note "ドキュメントの読み込みに失敗しました"] }

/-! ## Observers and sample data used in the statements -/

/-- The id `addMessage` gives a temporary bubble created at time `now`. -/
def tempId (now : Int) : String := "temp-" ++ toString now

/-- The network requests of a trace, oldest first. -/
def requestsOf : List Event → List Request
  | [] => []
  | .request r :: rest => r :: requestsOf rest
  | _ :: rest => requestsOf rest

/-- Events produced while a response is rendered: a bubble without id is
appended, or a bubble is removed. -/
def Event.isRender : Event → Bool
  | .append b => b.id.isNone
  | .remove _ => true
  | _ => false

/-- The wire format of one entry of `sources` (`{title?, content?} | string`). -/
inductive Source where
  | structured (title content : Option String)
  | raw (text : String)
  deriving DecidableEq

/-- The JSON value of a source entry. -/
def Source.toJSON : Source → JSValue
  | .structured title content =>
    .obj ((match title with
           | some t => [("title", .str t)]
           | none => []) ++
          (match content with
           | some c => [("content", .str c)]
           | none => []))
  | .raw text => .str text

/-- The `title` field of a source entry, when it has one. -/
def Source.title? : Source → Option String
  | .structured title _ => title
  | .raw _ => none

/-- The `content` field of a source entry, when it has one. -/
def Source.content? : Source → Option String
  | .structured _ content => content
  | .raw _ => none

/-- The wire format of one entry of `documents` (`{name}`). -/
structure Document where
  name : String
  deriving DecidableEq

/-- The JSON value of a document entry. -/
def Document.toJSON (d : Document) : JSValue :=
  .obj [("name", .str d.name)]

/-- An engine instance for evaluating the script on concrete inputs. -/
def sampleEngine : Engine where
  strPositive := fun _ => false
  typeErrorMessage := fun _ => "TypeError"
  functionText := fun _ => "function () \x7b [native code] \x7d"

/-- A page right after loading: four menu buttons, `chatbot` selected, empty
transcript. -/
def samplePage : State where
  currentFunctionType := some "chatbot"
  menuButtons := [⟨some "chatbot", true⟩, ⟨some "daily_report", false⟩,
    ⟨some "anomaly_detection", false⟩, ⟨some "production_plan", false⟩]
  functionTitle := "チャットボット"
  functionDescription := "社内文書を参照しながら質問にお答えします"
  chatMessages := []
  chatInput := ""
  placeholder := "質問を入力してください..."
  sendDisabled := false
  documentList := []
  sourcesContainer := []
  trace := []

/-- The sample page after one exchange: two bubbles in the transcript, one
source block shown, and a new message typed into the input field. -/
def sampleChat : State :=
  { samplePage with
    chatMessages := [⟨none, .user, "こんにちは"⟩, ⟨none, .bot, "ご用件をどうぞ"⟩]
    chatInput := " 何時から営業していますか\n"
    sourcesContainer := [.item "就業規則" "第3条"] }

/-- The bubble `addMessage(message, 'user')` appends. -/
def userBubble (text : String) : Bubble := { id := none, role := .user, content := text }

/-- The bubble `addMessage(text, 'bot')` appends. -/
def botBubble (text : String) : Bubble := { id := none, role := .bot, content := text }

/-- The temporary bubble `addMessage('考え中...', 'bot', true)` appends at time `now`. -/
def loadingBubble (now : Int) : Bubble :=
  { id := some (tempId now), role := .bot, content := "考え中..." }

/-- Between `s` and `t` only bubbles without id were appended to the transcript,
each with its `append` event. -/
def Appended (s t : State) : Prop :=
  ∃ tail : List Bubble, (∀ b ∈ tail, b.id = none) ∧
    t.chatMessages = s.chatMessages ++ tail ∧ t.trace = s.trace ++ tail.map Event.append

/-- Between `s` and `t` the trace grew by rendering events only. -/
def Quiet (s t : State) : Prop :=
  ∃ evs : List Event, (∀ e ∈ evs, e.isRender = true) ∧ t.trace = s.trace ++ evs

/-- The state in which `sendMessage` issues its request: the user bubble and the
temporary bubble are appended, the input is cleared, the send control is
disabled. -/
def sendMessage.inFlight (now : Int) (s : State) : State :=
  { s with
    chatMessages := s.chatMessages ++ [userBubble (trim s.chatInput), loadingBubble now]
    chatInput := ""
    sendDisabled := true
    trace := s.trace ++ [.append (userBubble (trim s.chatInput)), .sendDisabled true,
      .append (loadingBubble now),
      .request (chatRequest (trim s.chatInput) s.currentFunctionType)] }

/-- The state right after `removeMessage(loadingId)` took the temporary bubble
out again. -/
def sendMessage.answered (now : Int) (s : State) : State :=
  { sendMessage.inFlight now s with
    chatMessages := s.chatMessages ++ [userBubble (trim s.chatInput)]
    trace := (sendMessage.inFlight now s).trace ++ [.remove (loadingBubble now)] }

/-- The `catch` and `finally` clauses of `sendMessage` applied to the result of
the `try` block. -/
def sendMessage.settle (E : Engine) (now : Int) (r : State × Except Thrown Unit) : State :=
  let s :=
    match r with
    | (s, .ok _) => s
    | (s, .error error) =>
      (addMessage (some (.str ("通信エラーが発生しました: " ++ error.message E))) .bot false now
        (removeMessage (some (tempId now)) s)).1
  { s with sendDisabled := false, trace := s.trace ++ [.sendDisabled false] }

/-! ## Auxiliary lemmas -/

theorem trim_eq_empty (v : String) (h : ∀ c ∈ v.data, isWhiteSpace c = true) : trim v = "" := by
  unfold trim
  have h0 : v.data.dropWhile isWhiteSpace = [] := List.dropWhile_eq_nil_iff.mpr h
  rw [h0]
  rfl

theorem addMessage_str (x : String) (r : Role) (tmp : Bool) (now : Int) (s : State) :
    addMessage (some (.str x)) r tmp now s =
      ({ s with
          chatMessages := s.chatMessages ++ [⟨if tmp then some (tempId now) else none, r, x⟩],
          trace := s.trace ++ [.append ⟨if tmp then some (tempId now) else none, r, x⟩] },
        .ok (if tmp then some (tempId now) else none)) := by
  simp [addMessage, domText, JSValue.toStr, tempId]

theorem addMessage_cases (c : Option JSValue) (r : Role) (now : Int) (s : State) :
    (∃ e, addMessage c r false now s = (s, .error e)) ∨
    (∃ text, addMessage c r false now s =
      ({ s with chatMessages := s.chatMessages ++ [⟨none, r, text⟩],
                trace := s.trace ++ [.append ⟨none, r, text⟩] }, .ok none)) := by
  unfold addMessage
  cases h : domText c with
  | error e => exact Or.inl ⟨e, by simp⟩
  | ok text => exact Or.inr ⟨text, by simp⟩

theorem appended_refl (s : State) : Appended s s :=
  ⟨[], by simp, by simp, by simp⟩

theorem appended_trans {s t u : State} (h1 : Appended s t) (h2 : Appended t u) : Appended s u := by
  obtain ⟨a, ha, hc1, ht1⟩ := h1
  obtain ⟨b, hb, hc2, ht2⟩ := h2
  refine ⟨a ++ b, ?_, ?_, ?_⟩
  · intro x hx
    rcases List.mem_append.mp hx with hx | hx
    · exact ha x hx
    · exact hb x hx
  · rw [hc2, hc1, List.append_assoc]
  · rw [ht2, ht1, List.map_append, List.append_assoc]

theorem addMessage_appended (c : Option JSValue) (r : Role) (now : Int) (s : State) :
    Appended s (addMessage c r false now s).1 := by
  rcases addMessage_cases c r now s with ⟨e, h⟩ | ⟨text, h⟩
  · rw [h]; exact appended_refl s
  · rw [h]; exact ⟨[⟨none, r, text⟩], by simp, by simp, by simp⟩

theorem appendSources_frame (items : List JSValue) (s : State) :
    (appendSources items s).1.chatMessages = s.chatMessages ∧
    (appendSources items s).1.trace = s.trace := by
  induction items generalizing s with
  | nil => simp [appendSources]
  | cons x xs ih =>
    unfold appendSources
    cases renderSource x with
    | error e => simp
    | ok block => simpa using ih _

theorem displaySources_frame (sources : JSValue) (s : State) :
    (displaySources sources s).1.chatMessages = s.chatMessages ∧
    (displaySources sources s).1.trace = s.trace := by
  unfold displaySources
  cases lengthIsZero sources with
  | error e => simp
  | ok b =>
    cases b with
    | true => simp
    | false =>
      cases sources with
      | arr items => simpa using appendSources_frame items _
      | _ => simp

theorem displaySources_appended (sources : JSValue) (s : State) :
    Appended s (displaySources sources s).1 :=
  ⟨[], by simp, by simp [(displaySources_frame sources s).1],
    by simp [(displaySources_frame sources s).2]⟩

theorem render_appended (E : Engine) (now : Int) (data : JSValue) (s : State) :
    Appended s (sendMessage.render E now data s).1 := by
  unfold sendMessage.render
  cases getField data "success" with
  | error e => exact appended_refl s
  | ok success =>
    by_cases hs : truthy? success = true
    · simp only [hs, if_true]
      cases getField data "response" with
      | error e => exact appended_refl s
      | ok response =>
        have h1 := addMessage_appended response .bot now s
        dsimp only
        rcases addMessage_cases response .bot now s with ⟨e, h⟩ | ⟨text, h⟩
        · rw [h]; exact appended_refl s
        · rw [h] at h1
          rw [h]
          simp only
          cases getField data "sources" with
          | error e => exact h1
          | ok sources =>
            cases sources with
            | none => exact h1
            | some v =>
              simp only
              by_cases hv : v.truthy = true
              · simp only [hv, if_true]
                cases lengthPositive E v with
                | error e => exact h1
                | ok b =>
                  cases b with
                  | true => exact appended_trans h1 (displaySources_appended v _)
                  | false => exact h1
              · simp only [hv]
                exact h1
    · simp only [hs]
      cases getField data "error" with
      | error e => exact appended_refl s
      | ok error =>
        simp only
        generalize (match error with
          | some v => if v.truthy = true then v.toStr else Except.ok "不明なエラー"
          | none => Except.ok "不明なエラー") = txt
        cases txt with
        | error e => exact appended_refl s
        | ok text =>
          simp only [addMessage_str]
          exact ⟨[⟨none, .bot, "エラーが発生しました: " ++ text⟩], by simp, by simp, by simp⟩

theorem removeMessage_absent (id : String) (s : State)
    (h : ∀ b ∈ s.chatMessages, b.id ≠ some id) : removeMessage (some id) s = s := by
  unfold removeMessage
  have h0 : (s.chatMessages.find? fun b => b.id = some id) = none := by
    rw [List.find?_eq_none]
    intro b hb
    simpa using h b hb
  simp [h0]

theorem removeMessage_last (id : String) (s : State) (pre : List Bubble) (l : Bubble)
    (hs : s.chatMessages = pre ++ [l]) (hl : l.id = some id)
    (h : ∀ b ∈ pre, b.id ≠ some id) :
    removeMessage (some id) s =
      { s with chatMessages := pre, trace := s.trace ++ [.remove l] } := by
  unfold removeMessage
  have hnone : (pre.find? fun b => decide (b.id = some id)) = none := by
    rw [List.find?_eq_none]
    intro b hb
    simpa using h b hb
  have h0 : (s.chatMessages.find? fun b => b.id = some id) = some l := by
    rw [hs, List.find?_append, hnone]
    simp [hl]
  have h1 : (s.chatMessages.eraseP fun b => b.id = some id) = pre := by
    rw [hs, List.eraseP_append_right]
    · simp [List.eraseP, hl]
    · intro b hb
      simpa using h b hb
  simp [h0, h1]

theorem removeMessage_quiet (id : Option String) (s : State) : Quiet s (removeMessage id s) := by
  unfold removeMessage
  dsimp only
  split
  · exact ⟨[], by simp, by simp⟩
  · next m _ => exact ⟨[.remove m], by simp [Event.isRender], by simp⟩

theorem quiet_trans {s t u : State} (h1 : Quiet s t) (h2 : Quiet t u) : Quiet s u := by
  obtain ⟨a, ha, ht1⟩ := h1
  obtain ⟨b, hb, ht2⟩ := h2
  refine ⟨a ++ b, ?_, ?_⟩
  · intro x hx
    rcases List.mem_append.mp hx with hx | hx
    · exact ha x hx
    · exact hb x hx
  · rw [ht2, ht1, List.append_assoc]

theorem appended_quiet {s t : State} (h : Appended s t) : Quiet s t := by
  obtain ⟨tail, hid, _, ht⟩ := h
  refine ⟨tail.map Event.append, ?_, ht⟩
  intro e he
  obtain ⟨b, hb, rfl⟩ := List.mem_map.mp he
  simp [Event.isRender, hid b hb]

theorem sendMessage_unfold (E : Engine) (now : Int) (outcome : FetchOutcome) (s : State)
    (h : trim s.chatInput ≠ "") :
    sendMessage E now outcome s =
      sendMessage.settle E now
        (sendMessage.attempt E now (some (tempId now)) outcome (sendMessage.inFlight now s)) := by
  simp [sendMessage, h, addMessage_str, sendMessage.settle, sendMessage.inFlight, userBubble,
    loadingBubble]

theorem attempt_quiet (E : Engine) (now : Int) (id : Option String) (outcome : FetchOutcome)
    (s : State) : Quiet s (sendMessage.attempt E now id outcome s).1 := by
  cases outcome with
  | rejected m => exact ⟨[], by simp, by simp [sendMessage.attempt]⟩
  | unparsable m => exact ⟨[], by simp, by simp [sendMessage.attempt]⟩
  | body data =>
    exact quiet_trans (removeMessage_quiet id s) (appended_quiet (render_appended E now data _))

theorem settle_trace (E : Engine) (now : Int) (r : State × Except Thrown Unit) :
    ∃ evs : List Event, (∀ e ∈ evs, e.isRender = true) ∧
      (sendMessage.settle E now r).trace = r.1.trace ++ evs ++ [.sendDisabled false] := by
  obtain ⟨s, res⟩ := r
  cases res with
  | ok u => exact ⟨[], by simp, by simp [sendMessage.settle]⟩
  | error err =>
    obtain ⟨evs, hevs, ht⟩ :=
      quiet_trans (removeMessage_quiet (some (tempId now)) s)
        (appended_quiet (addMessage_appended
          (some (.str ("通信エラーが発生しました: " ++ err.message E))) .bot now
          (removeMessage (some (tempId now)) s)))
    exact ⟨evs, hevs, by simp [sendMessage.settle, ht]⟩

theorem sendMessage_trace (E : Engine) (now : Int) (outcome : FetchOutcome) (s : State)
    (h : trim s.chatInput ≠ "") :
    ∃ mid : List Event, (∀ e ∈ mid, e.isRender = true) ∧
      (sendMessage E now outcome s).trace =
        s.trace ++ [.append (userBubble (trim s.chatInput)), .sendDisabled true,
          .append (loadingBubble now),
          .request (chatRequest (trim s.chatInput) s.currentFunctionType)] ++ mid ++
          [.sendDisabled false] := by
  rw [sendMessage_unfold E now outcome s h]
  obtain ⟨a, ha, hta⟩ := attempt_quiet E now (some (tempId now)) outcome (sendMessage.inFlight now s)
  obtain ⟨b, hb, htb⟩ := settle_trace E now
    (sendMessage.attempt E now (some (tempId now)) outcome (sendMessage.inFlight now s))
  refine ⟨a ++ b, ?_, ?_⟩
  · intro x hx
    rcases List.mem_append.mp hx with hx | hx
    · exact ha x hx
    · exact hb x hx
  · rw [htb, hta]
    simp [sendMessage.inFlight]

theorem inFlight_removeMessage (now : Int) (s : State)
    (hid : ∀ b ∈ s.chatMessages, b.id ≠ some (tempId now)) :
    removeMessage (some (tempId now)) (sendMessage.inFlight now s) =
      sendMessage.answered now s := by
  apply removeMessage_last (tempId now) (sendMessage.inFlight now s)
    (s.chatMessages ++ [userBubble (trim s.chatInput)]) (loadingBubble now)
  · simp [sendMessage.inFlight]
  · rfl
  · intro b hb
    rcases List.mem_append.mp hb with hb | hb
    · exact hid b hb
    · simp only [List.mem_singleton] at hb
      subst hb
      simp [userBubble]

theorem sendMessage_transcript (E : Engine) (now : Int) (outcome : FetchOutcome) (s : State)
    (h : trim s.chatInput ≠ "") (hid : ∀ b ∈ s.chatMessages, b.id ≠ some (tempId now)) :
    ∃ tail : List Bubble, (∀ b ∈ tail, b.id = none) ∧
      (sendMessage E now outcome s).chatMessages =
        s.chatMessages ++ userBubble (trim s.chatInput) :: tail ∧
      (sendMessage E now outcome s).trace =
        s.trace ++ [.append (userBubble (trim s.chatInput)), .sendDisabled true,
          .append (loadingBubble now),
          .request (chatRequest (trim s.chatInput) s.currentFunctionType),
          .remove (loadingBubble now)] ++ tail.map Event.append ++ [.sendDisabled false] := by
  rw [sendMessage_unfold E now outcome s h]
  have hrm := inFlight_removeMessage now s hid
  have hc1 : (sendMessage.answered now s).chatMessages =
      s.chatMessages ++ [userBubble (trim s.chatInput)] := rfl
  have ht1 : (sendMessage.answered now s).trace =
      s.trace ++ [.append (userBubble (trim s.chatInput)), .sendDisabled true,
        .append (loadingBubble now),
        .request (chatRequest (trim s.chatInput) s.currentFunctionType),
        .remove (loadingBubble now)] := by
    simp [sendMessage.answered, sendMessage.inFlight]
  cases outcome with
  | rejected m =>
    refine ⟨[botBubble ("通信エラーが発生しました: " ++ m)], by simp [botBubble], ?_, ?_⟩ <;>
      simp only [sendMessage.attempt, sendMessage.settle, hrm, addMessage_str, Thrown.message] <;>
      simp [hc1, ht1, botBubble]
  | unparsable m =>
    refine ⟨[botBubble ("通信エラーが発生しました: " ++ m)], by simp [botBubble], ?_, ?_⟩ <;>
      simp only [sendMessage.attempt, sendMessage.settle, hrm, addMessage_str, Thrown.message] <;>
      simp [hc1, ht1, botBubble]
  | body data =>
    simp only [sendMessage.attempt, hrm]
    obtain ⟨tail, htail, hc2, ht2⟩ := render_appended E now data (sendMessage.answered now s)
    generalize sendMessage.render E now data (sendMessage.answered now s) = r at hc2 ht2
    obtain ⟨s2, res⟩ := r
    simp only at hc2 ht2
    cases res with
    | ok u =>
      refine ⟨tail, htail, ?_, ?_⟩
      · simp [sendMessage.settle, hc2, hc1]
      · simp [sendMessage.settle, ht2, ht1]
    | error err =>
      have habs : removeMessage (some (tempId now)) s2 = s2 := by
        apply removeMessage_absent
        intro b hb
        rw [hc2, hc1] at hb
        rcases List.mem_append.mp hb with hb | hb
        · rcases List.mem_append.mp hb with hb | hb
          · exact hid b hb
          · simp only [List.mem_singleton] at hb
            subst hb
            simp [userBubble]
        · simp [htail b hb]
      refine ⟨tail ++ [botBubble ("通信エラーが発生しました: " ++ err.message E)], ?_, ?_, ?_⟩
      · intro b hb
        rcases List.mem_append.mp hb with hb | hb
        · exact htail b hb
        · simp only [List.mem_singleton] at hb
          subst hb
          rfl
      · simp [sendMessage.settle, habs, addMessage_str, hc2, hc1, botBubble]
      · simp [sendMessage.settle, habs, addMessage_str, ht2, ht1, botBubble]

theorem requestsOf_append (a b : List Event) :
    requestsOf (a ++ b) = requestsOf a ++ requestsOf b := by
  induction a with
  | nil => rfl
  | cons e rest ih =>
    cases e <;> simp [requestsOf, ih]

theorem requestsOf_render (evs : List Event) (h : ∀ e ∈ evs, e.isRender = true) :
    requestsOf evs = [] := by
  induction evs with
  | nil => rfl
  | cons e rest ih =>
    have he := h e (List.mem_cons_self e rest)
    have hrest : ∀ x ∈ rest, x.isRender = true := fun x hx => h x (List.mem_cons_of_mem e hx)
    cases e <;> simp_all [requestsOf, Event.isRender]

theorem renderSource_structured (t c : Option String) :
    renderSource (Source.structured t c).toJSON =
      .ok (.item
        (match t with
         | some x => if x = "" then "参照元" else x
         | none => "参照元")
        (match c with
         | some y => if y = "" then "[object Object]" else y
         | none => "[object Object]")) := by
  cases t with
  | none =>
    cases c with
    | none => rfl
    | some y =>
      by_cases hy : y = ""
      · subst hy; rfl
      · simp [Source.toJSON, renderSource, getField, lookup, truthy?, JSValue.truthy, domText,
          JSValue.toStr, hy]
  | some x =>
    cases c with
    | none =>
      by_cases hx : x = ""
      · subst hx; rfl
      · simp [Source.toJSON, renderSource, getField, lookup, truthy?, JSValue.truthy, domText,
          JSValue.toStr, hx]
    | some y =>
      by_cases hx : x = "" <;> by_cases hy : y = ""
      · subst hx; subst hy; rfl
      · subst hx
        simp [Source.toJSON, renderSource, getField, lookup, truthy?, JSValue.truthy, domText,
          JSValue.toStr, hy]
      · subst hy
        simp [Source.toJSON, renderSource, getField, lookup, truthy?, JSValue.truthy, domText,
          JSValue.toStr, hx]
      · simp [Source.toJSON, renderSource, getField, lookup, truthy?, JSValue.truthy, domText,
          JSValue.toStr, hx, hy]

theorem renderSource_raw (text : String) :
    renderSource (Source.raw text).toJSON = .ok (.item "参照元" text) := by
  simp [Source.toJSON, renderSource, getField, truthy?, domText, JSValue.toStr]

theorem appendSources_typed (srcs : List Source) (s : State) :
    ∃ blocks : List SourceNode,
      appendSources (srcs.map Source.toJSON) s =
        ({ s with sourcesContainer := s.sourcesContainer ++ blocks }, .ok ()) ∧
      List.Forall₂ (fun src node => renderSource src.toJSON = .ok node) srcs blocks := by
  induction srcs generalizing s with
  | nil => exact ⟨[], by simp [appendSources], List.Forall₂.nil⟩
  | cons src rest ih =>
    have hnode : ∃ node, renderSource src.toJSON = .ok node := by
      cases src with
      | structured t c => exact ⟨_, renderSource_structured t c⟩
      | raw text => exact ⟨_, renderSource_raw text⟩
    obtain ⟨node, hnode⟩ := hnode
    obtain ⟨blocks, hb, hf⟩ := ih { s with sourcesContainer := s.sourcesContainer ++ [node] }
    refine ⟨node :: blocks, ?_, List.Forall₂.cons hnode hf⟩
    simp [appendSources, hnode, hb]

theorem displaySources_typed (srcs : List Source) (s : State) (h : srcs ≠ []) :
    ∃ blocks : List SourceNode,
      displaySources (.arr (srcs.map Source.toJSON)) s =
        ({ s with sourcesContainer := blocks }, .ok ()) ∧
      List.Forall₂ (fun src node => renderSource src.toJSON = .ok node) srcs blocks := by
  obtain ⟨blocks, hb, hf⟩ := appendSources_typed srcs { s with sourcesContainer := [] }
  have hne : (srcs.map Source.toJSON).isEmpty = false := by
    cases srcs with
    | nil => exact absurd rfl h
    | cons a rest => rfl
  refine ⟨blocks, ?_, hf⟩
  simp [displaySources, lengthIsZero, hne, hb]

/-! ## The claims -/

/-- C1: when the input field is empty or holds only white space, `sendMessage`
returns the state it was given: no request is added to the trace, the
transcript, the input field and the send control are what they were. -/
theorem sendMessage_blank_noop (E : Engine) (now : Int) (outcome : FetchOutcome) (s : State)
    (h : ∀ c ∈ s.chatInput.data, isWhiteSpace c = true) :
    sendMessage E now outcome s = s ∧
    requestsOf (sendMessage E now outcome s).trace = requestsOf s.trace ∧
    (sendMessage E now outcome s).chatMessages = s.chatMessages ∧
    (sendMessage E now outcome s).chatInput = s.chatInput ∧
    (sendMessage E now outcome s).sendDisabled = s.sendDisabled := by
  have h0 : sendMessage E now outcome s = s := by
    simp [sendMessage, trim_eq_empty s.chatInput h]
  simp [h0]

theorem sendMessage_blank_noop_witness :
    (∀ c ∈ ({ samplePage with chatInput := " \t\n　" } : State).chatInput.data,
      isWhiteSpace c = true) ∧
    sendMessage sampleEngine 1700 (.rejected "Failed to fetch")
      { samplePage with chatInput := " \t\n　" } = { samplePage with chatInput := " \t\n　" } :=
  ⟨by decide,
    (sendMessage_blank_noop sampleEngine 1700 (.rejected "Failed to fetch")
      { samplePage with chatInput := " \t\n　" } (by decide)).1⟩

/-- C2: for a message that is not blank and every outcome of the request, the
temporary bubble created by this send is gone from the final transcript: the
transcript is the old one followed by the user bubble and bubbles without id,
so it holds no temporary bubble unless the old one did.  In the trace the
removal of the temporary bubble follows the request directly and precedes
every bubble appended afterwards, the error bubble of a failure path included.
The old transcript is assumed not to hold a bubble with the id generated by
this send. -/
theorem sendMessage_removes_loading (E : Engine) (now : Int) (outcome : FetchOutcome) (s : State)
    (h : trim s.chatInput ≠ "") (hid : ∀ b ∈ s.chatMessages, b.id ≠ some (tempId now)) :
    loadingBubble now ∉ (sendMessage E now outcome s).chatMessages ∧
    (∀ b ∈ (sendMessage E now outcome s).chatMessages, b.id ≠ some (tempId now)) ∧
    ((∀ b ∈ s.chatMessages, b.id = none) →
      ∀ b ∈ (sendMessage E now outcome s).chatMessages, b.id = none) ∧
    ∃ tail : List Bubble, (∀ b ∈ tail, b.id = none) ∧
      (sendMessage E now outcome s).chatMessages =
        s.chatMessages ++ userBubble (trim s.chatInput) :: tail ∧
      (sendMessage E now outcome s).trace =
        s.trace ++ [.append (userBubble (trim s.chatInput)), .sendDisabled true,
          .append (loadingBubble now),
          .request (chatRequest (trim s.chatInput) s.currentFunctionType),
          .remove (loadingBubble now)] ++ tail.map Event.append ++ [.sendDisabled false] := by
  obtain ⟨tail, htail, hc, ht⟩ := sendMessage_transcript E now outcome s h hid
  have hall : ∀ b ∈ (sendMessage E now outcome s).chatMessages, b.id ≠ some (tempId now) := by
    intro b hb
    rw [hc] at hb
    rcases List.mem_append.mp hb with hb | hb
    · exact hid b hb
    · rcases List.mem_cons.mp hb with hb | hb
      · subst hb
        simp [userBubble]
      · simp [htail b hb]
  refine ⟨?_, hall, ?_, tail, htail, hc, ht⟩
  · intro hmem
    exact hall _ hmem rfl
  · intro hold b hb
    rw [hc] at hb
    rcases List.mem_append.mp hb with hb | hb
    · exact hold b hb
    · rcases List.mem_cons.mp hb with hb | hb
      · subst hb
        rfl
      · exact htail b hb

theorem sendMessage_removes_loading_witness :
    trim sampleChat.chatInput ≠ "" ∧
    (∀ b ∈ sampleChat.chatMessages, b.id ≠ some (tempId 1700)) ∧
    loadingBubble 1700 ∉
      (sendMessage sampleEngine 1700 (.unparsable "Unexpected token") sampleChat).chatMessages ∧
    (∀ b ∈ (sendMessage sampleEngine 1700 (.unparsable "Unexpected token")
      sampleChat).chatMessages, b.id = none) :=
  ⟨by decide, by decide,
    (sendMessage_removes_loading sampleEngine 1700 (.unparsable "Unexpected token")
      sampleChat (by decide) (by decide)).1,
    (sendMessage_removes_loading sampleEngine 1700 (.unparsable "Unexpected token")
      sampleChat (by decide) (by decide)).2.2.1 (by decide)⟩

/-- C4: for an input whose trimmed form `t` is not empty and a current function
type `f`, `sendMessage` issues exactly one request, whatever the outcome:
`POST /api/chat` with the JSON content type and the body
`{message: t, function_type: f}` and no other field. -/
theorem sendMessage_issues_one_request (E : Engine) (now : Int) (outcome : FetchOutcome)
    (s : State) (f : String) (h : trim s.chatInput ≠ "") (hf : s.currentFunctionType = some f) :
    requestsOf (sendMessage E now outcome s).trace =
      requestsOf s.trace ++
        [{ url := "/api/chat"
           method := "POST"
           headers := [("Content-Type", "application/json")]
           body := some [("message", trim s.chatInput), ("function_type", f)] }] := by
  obtain ⟨mid, hmid, ht⟩ := sendMessage_trace E now outcome s h
  rw [ht]
  simp [requestsOf_append, requestsOf_render mid hmid, requestsOf, chatRequest, hf]

theorem sendMessage_issues_one_request_witness :
    trim ({ samplePage with chatInput := "  何時から営業していますか \n" } : State).chatInput ≠ "" ∧
    requestsOf (sendMessage sampleEngine 1700 (.rejected "Failed to fetch")
      { samplePage with chatInput := "  何時から営業していますか \n" }).trace =
      [{ url := "/api/chat"
         method := "POST"
         headers := [("Content-Type", "application/json")]
         body := some [("message", "何時から営業していますか"), ("function_type", "chatbot")] }] := by
  refine ⟨by decide, ?_⟩
  have h := sendMessage_issues_one_request sampleEngine 1700 (.rejected "Failed to fetch")
    { samplePage with chatInput := "  何時から営業していますか \n" } "chatbot" (by decide) rfl
  rw [h]
  decide

theorem render_success (E : Engine) (now : Int) (fields : List (String × JSValue)) (r : String)
    (srcs : List Source) (s : State)
    (hs : lookup "success" fields = some (.bool true))
    (hr : lookup "response" fields = some (.str r))
    (hsrc : lookup "sources" fields = some (.arr (srcs.map Source.toJSON))) :
    ∃ blocks : List SourceNode,
      sendMessage.render E now (.obj fields) s =
        ({ s with chatMessages := s.chatMessages ++ [botBubble r]
                  trace := s.trace ++ [.append (botBubble r)]
                  sourcesContainer := if srcs = [] then s.sourcesContainer else blocks },
          .ok ()) ∧
      List.Forall₂ (fun src node => renderSource src.toJSON = .ok node) srcs blocks := by
  by_cases hnil : srcs = []
  · subst hnil
    refine ⟨[], ?_, List.Forall₂.nil⟩
    simp [sendMessage.render, getField, hs, hr, hsrc, truthy?, JSValue.truthy, addMessage_str,
      lengthPositive, botBubble]
  · obtain ⟨blocks, hb, hf⟩ := displaySources_typed srcs
      { s with chatMessages := s.chatMessages ++ [botBubble r]
               trace := s.trace ++ [.append (botBubble r)] } hnil
    have hne : (srcs.map Source.toJSON).isEmpty = false := by
      cases srcs with
      | nil => exact absurd rfl hnil
      | cons a rest => rfl
    refine ⟨blocks, ?_, hf⟩
    simp only [botBubble] at hb
    simp [sendMessage.render, getField, hs, hr, hsrc, truthy?, JSValue.truthy, addMessage_str,
      lengthPositive, botBubble, hne, hb, hnil]

theorem renderSource_typed_spec (src : Source) (node : SourceNode)
    (h : renderSource src.toJSON = .ok node) :
    ∃ title content, node = .item title content ∧
      (∀ t, src.title? = some t → t ≠ "" → title = t) ∧
      ((src.title? = none ∨ src.title? = some "") → title = "参照元") ∧
      (∀ c, src.content? = some c → c ≠ "" → content = c) ∧
      (∀ x, src = .raw x → content = x) := by
  cases src with
  | raw text =>
    rw [renderSource_raw] at h
    injection h with h
    subst h
    exact ⟨_, _, rfl, by simp [Source.title?], by simp, by simp [Source.content?], by simp⟩
  | structured t c =>
    rw [renderSource_structured] at h
    injection h with h
    subst h
    refine ⟨_, _, rfl, ?_, ?_, ?_, by simp⟩
    · intro x hx hne
      simp only [Source.title?] at hx
      subst hx
      simp [hne]
    · intro hx
      simp only [Source.title?] at hx
      rcases hx with hx | hx <;> subst hx <;> simp
    · intro x hx hne
      simp only [Source.content?] at hx
      subst hx
      simp [hne]

/-- C5: for a message whose trimmed form `t` is not empty and a response body
with `success: true`, response text `r` and a `sources` sequence, the final
transcript is the old one followed by the user bubble with text `t` and the bot
bubble with text `r`, the input field is empty, and for a non-empty sequence
the source area holds one block per entry, in order, each the rendering of its
entry (one block titled "営業規則" for the example of the specification).  The old
transcript is assumed not to hold a bubble with the id generated by this send. -/
theorem sendMessage_success (E : Engine) (now : Int) (s : State)
    (fields : List (String × JSValue)) (r : String) (srcs : List Source)
    (h : trim s.chatInput ≠ "") (hid : ∀ b ∈ s.chatMessages, b.id ≠ some (tempId now))
    (hs : lookup "success" fields = some (.bool true))
    (hr : lookup "response" fields = some (.str r))
    (hsrc : lookup "sources" fields = some (.arr (srcs.map Source.toJSON))) :
    (sendMessage E now (.body (.obj fields)) s).chatMessages =
      s.chatMessages ++ [userBubble (trim s.chatInput), botBubble r] ∧
    (sendMessage E now (.body (.obj fields)) s).chatInput = "" ∧
    (srcs ≠ [] →
      List.Forall₂ (fun src node => renderSource src.toJSON = .ok node ∧
          ∃ title content, node = SourceNode.item title content)
        srcs (sendMessage E now (.body (.obj fields)) s).sourcesContainer) ∧
    (∀ c, c ≠ "" → srcs = [.structured (some "営業規則") (some c)] →
      (sendMessage E now (.body (.obj fields)) s).sourcesContainer = [.item "営業規則" c]) := by
  obtain ⟨blocks, hrender, hf⟩ :=
    render_success E now fields r srcs (sendMessage.answered now s) hs hr hsrc
  have hfinal : sendMessage E now (.body (.obj fields)) s =
      sendMessage.settle E now (sendMessage.render E now (.obj fields)
        (sendMessage.answered now s)) := by
    rw [sendMessage_unfold E now _ s h]
    simp only [sendMessage.attempt, inFlight_removeMessage now s hid]
  rw [hfinal, hrender]
  have hsc : ∀ hne : srcs ≠ [], (sendMessage.settle E now
      ({ sendMessage.answered now s with
          chatMessages := (sendMessage.answered now s).chatMessages ++ [botBubble r]
          trace := (sendMessage.answered now s).trace ++ [.append (botBubble r)]
          sourcesContainer :=
            if srcs = [] then (sendMessage.answered now s).sourcesContainer else blocks },
        .ok ())).sourcesContainer = blocks := by
    intro hne
    simp [sendMessage.settle, hne]
  refine ⟨?_, ?_, ?_, ?_⟩
  · simp [sendMessage.settle, sendMessage.answered]
  · simp [sendMessage.settle, sendMessage.answered, sendMessage.inFlight]
  · intro hne
    rw [hsc hne]
    refine hf.imp ?_
    intro src node hnode
    obtain ⟨title, content, hn, _⟩ := renderSource_typed_spec src node hnode
    exact ⟨hnode, title, content, hn⟩
  · intro c hc hsrcs
    have hne : srcs ≠ [] := by simp [hsrcs]
    rw [hsc hne]
    subst hsrcs
    cases hf with
    | cons h1 h2 =>
      cases h2
      rw [renderSource_structured] at h1
      injection h1 with h1
      simp [← h1, hc]

theorem sendMessage_success_witness :
    (sendMessage sampleEngine 1700
      (.body (.obj [("success", .bool true), ("response", .str "9時から18時です"),
        ("sources", .arr ([Source.structured (some "営業規則") (some "…")].map Source.toJSON))]))
      sampleChat).chatMessages =
      [userBubble "こんにちは", botBubble "ご用件をどうぞ",
        userBubble "何時から営業していますか", botBubble "9時から18時です"] ∧
    (sendMessage sampleEngine 1700
      (.body (.obj [("success", .bool true), ("response", .str "9時から18時です"),
        ("sources", .arr ([Source.structured (some "営業規則") (some "…")].map Source.toJSON))]))
      sampleChat).sourcesContainer = [.item "営業規則" "…"] := by
  have h := sendMessage_success sampleEngine 1700 sampleChat
    [("success", .bool true), ("response", .str "9時から18時です"),
      ("sources", .arr ([Source.structured (some "営業規則") (some "…")].map Source.toJSON))]
    "9時から18時です" [Source.structured (some "営業規則") (some "…")]
    (by decide) (by decide) rfl rfl rfl
  exact ⟨h.1, h.2.2.2 "…" (by decide) rfl⟩

theorem removeMessage_sourcesContainer (id : Option String) (s : State) :
    (removeMessage id s).sourcesContainer = s.sourcesContainer := by
  unfold removeMessage
  dsimp only
  split <;> rfl

theorem render_failure (E : Engine) (now : Int) (fields : List (String × JSValue)) (s : State)
    (hs : truthy? (lookup "success" fields) = false) :
    (sendMessage.settle E now (sendMessage.render E now (.obj fields) s)).sourcesContainer =
      s.sourcesContainer ∧
    (∀ e, lookup "error" fields = some (.str e) → e ≠ "" →
      sendMessage.render E now (.obj fields) s =
        ({ s with chatMessages := s.chatMessages ++ [botBubble ("エラーが発生しました: " ++ e)]
                  trace := s.trace ++ [.append (botBubble ("エラーが発生しました: " ++ e))] },
          .ok ())) ∧
    ((lookup "error" fields = none ∨ lookup "error" fields = some (.str "")) →
      sendMessage.render E now (.obj fields) s =
        ({ s with chatMessages := s.chatMessages ++ [botBubble "エラーが発生しました: 不明なエラー"]
                  trace := s.trace ++ [.append (botBubble "エラーが発生しました: 不明なエラー")] },
          .ok ())) := by
  refine ⟨?_, ?_, ?_⟩
  · simp only [sendMessage.render, getField, hs]
    generalize (match lookup "error" fields with
      | some v => if v.truthy = true then v.toStr else Except.ok "不明なエラー"
      | none => Except.ok "不明なエラー") = txt
    cases txt with
    | error e =>
      simp [sendMessage.settle, addMessage_str, removeMessage_sourcesContainer]
    | ok text => simp [sendMessage.settle, addMessage_str]
  · intro e he hne
    simp [sendMessage.render, getField, hs, he, JSValue.truthy, hne, JSValue.toStr,
      addMessage_str, botBubble]
  · intro he
    rcases he with he | he <;>
      simp [sendMessage.render, getField, hs, he, JSValue.truthy, addMessage_str, botBubble]

/-- C6 (as amended): for a message that is not blank and a response object whose
`success` field is false, missing or otherwise falsy, `sendMessage` appends,
after the user bubble, exactly one bot bubble; its text is
"エラーが発生しました: " followed by the `error` string of the body when that string is
not empty, and "エラーが発生しました: 不明なエラー" when the body has no `error` field or an
empty one; the source area is left as it was.  The old transcript is assumed
not to hold a bubble with the id generated by this send. -/
theorem sendMessage_server_failure (E : Engine) (now : Int) (s : State)
    (fields : List (String × JSValue))
    (h : trim s.chatInput ≠ "") (hid : ∀ b ∈ s.chatMessages, b.id ≠ some (tempId now))
    (hs : truthy? (lookup "success" fields) = false) :
    (∀ e, lookup "error" fields = some (.str e) → e ≠ "" →
      (sendMessage E now (.body (.obj fields)) s).chatMessages =
        s.chatMessages ++
          [userBubble (trim s.chatInput), botBubble ("エラーが発生しました: " ++ e)]) ∧
    ((lookup "error" fields = none ∨ lookup "error" fields = some (.str "")) →
      (sendMessage E now (.body (.obj fields)) s).chatMessages =
        s.chatMessages ++
          [userBubble (trim s.chatInput), botBubble "エラーが発生しました: 不明なエラー"]) ∧
    (sendMessage E now (.body (.obj fields)) s).sourcesContainer = s.sourcesContainer := by
  have hfinal : sendMessage E now (.body (.obj fields)) s =
      sendMessage.settle E now (sendMessage.render E now (.obj fields)
        (sendMessage.answered now s)) := by
    rw [sendMessage_unfold E now _ s h]
    simp only [sendMessage.attempt, inFlight_removeMessage now s hid]
  obtain ⟨hsc, hsome, hnone⟩ := render_failure E now fields (sendMessage.answered now s) hs
  rw [hfinal]
  refine ⟨?_, ?_, ?_⟩
  · intro e he hne
    rw [hsome e he hne]
    simp [sendMessage.settle, sendMessage.answered]
  · intro he
    rw [hnone he]
    simp [sendMessage.settle, sendMessage.answered]
  · rw [hsc]
    rfl

theorem sendMessage_server_failure_witness :
    (sendMessage sampleEngine 1700
      (.body (.obj [("success", .bool false), ("error", .str "bad input")]))
      sampleChat).chatMessages =
      [userBubble "こんにちは", botBubble "ご用件をどうぞ",
        userBubble "何時から営業していますか", botBubble "エラーが発生しました: bad input"] ∧
    (sendMessage sampleEngine 1700 (.body (.obj [])) sampleChat).chatMessages =
      [userBubble "こんにちは", botBubble "ご用件をどうぞ",
        userBubble "何時から営業していますか", botBubble "エラーが発生しました: 不明なエラー"] :=
  ⟨(sendMessage_server_failure sampleEngine 1700 sampleChat
      [("success", .bool false), ("error", .str "bad input")]
      (by decide) (by decide) rfl).1 "bad input" rfl (by decide),
    (sendMessage_server_failure sampleEngine 1700 sampleChat
      [] (by decide) (by decide) rfl).2.1 (Or.inl rfl)⟩

/-- C6 (as stated) fails: a body `{success: false, error: ""}` has an `error` field,
yet the bubble shows the default "不明なエラー" instead of the prefix followed by
that (empty) error string. -/
theorem sendMessage_empty_error_counterexample :
    (sendMessage sampleEngine 1700
      (.body (.obj [("success", .bool false), ("error", .str "")]))
      sampleChat).chatMessages =
      [userBubble "こんにちは", botBubble "ご用件をどうぞ",
        userBubble "何時から営業していますか", botBubble "エラーが発生しました: 不明なエラー"] ∧
    (sendMessage sampleEngine 1700
      (.body (.obj [("success", .bool false), ("error", .str "")]))
      sampleChat).chatMessages ≠
      [userBubble "こんにちは", botBubble "ご用件をどうぞ",
        userBubble "何時から営業していますか", botBubble ("エラーが発生しました: " ++ "")] := by
  decide

/-- C7 (as amended): for a non-empty sequence of sources, `displaySources` ends
normally and leaves in the source area exactly one block per entry, in order.
A block's title is the entry's `title` when that is a non-empty string and
"参照元" otherwise; its content is the entry's `content` when that is a non-empty
string, and the entry itself when the entry is a bare string. -/
theorem displaySources_renders (srcs : List Source) (s : State) (h : srcs ≠ []) :
    (displaySources (.arr (srcs.map Source.toJSON)) s).2 = .ok () ∧
    List.Forall₂
      (fun src node => ∃ title content, node = SourceNode.item title content ∧
        (∀ t, src.title? = some t → t ≠ "" → title = t) ∧
        ((src.title? = none ∨ src.title? = some "") → title = "参照元") ∧
        (∀ c, src.content? = some c → c ≠ "" → content = c) ∧
        (∀ x, src = .raw x → content = x))
      srcs (displaySources (.arr (srcs.map Source.toJSON)) s).1.sourcesContainer := by
  obtain ⟨blocks, hb, hf⟩ := displaySources_typed srcs s h
  rw [hb]
  exact ⟨rfl, hf.imp fun src node hnode => renderSource_typed_spec src node hnode⟩

theorem displaySources_renders_witness :
    (displaySources
      (.arr ([Source.structured (some "営業規則") (some "…"), Source.raw "就業規則 第3条",
        Source.structured none (some "本文")].map Source.toJSON))
      { samplePage with sourcesContainer := [.note "現在、参照元はありません"] }).2 = .ok () :=
  (displaySources_renders
    [Source.structured (some "営業規則") (some "…"), Source.raw "就業規則 第3条",
      Source.structured none (some "本文")]
    { samplePage with sourcesContainer := [.note "現在、参照元はありません"] } (by decide)).1

/-- C7 (as stated) fails: the entry `{title: "", content: ""}` has a title and a
content field, yet its block is titled "参照元" and shows "[object Object]". -/
theorem displaySources_empty_fields_counterexample :
    (displaySources (.arr [(Source.structured (some "") (some "")).toJSON])
      samplePage).1.sourcesContainer = [.item "参照元" "[object Object]"] ∧
    (displaySources (.arr [(Source.structured (some "") (some "")).toJSON])
      samplePage).1.sourcesContainer ≠ [.item "" ""] := by
  decide

/-- C8 (the code at the failing input): the source area shows the block of an
earlier response; a new successful response with an empty `sources`, or with
none, leaves that block in place, while `displaySources` called on the empty
list would have replaced it by the paragraph "現在、参照元はありません". -/
theorem sendMessage_keeps_stale_sources :
    sampleChat.sourcesContainer = [.item "就業規則" "第3条"] ∧
    (sendMessage sampleEngine 1700
      (.body (.obj [("success", .bool true), ("response", .str "はい"), ("sources", .arr [])]))
      sampleChat).sourcesContainer = [.item "就業規則" "第3条"] ∧
    (sendMessage sampleEngine 1700
      (.body (.obj [("success", .bool true), ("response", .str "はい")]))
      sampleChat).sourcesContainer = [.item "就業規則" "第3条"] ∧
    (displaySources (.arr []) sampleChat).1.sourcesContainer =
      [.note "現在、参照元はありません"] := by
  decide

theorem placeholders_lookup_none (key : String)
    (h : key ∉ ["chatbot", "daily_report", "anomaly_detection", "production_plan"]) :
    placeholders.lookup key = none := by
  simp only [List.mem_cons, List.mem_singleton, List.not_mem_nil, or_false, not_or] at h
  obtain ⟨h1, h2, h3, h4⟩ := h
  have e1 : (key == "chatbot") = false := beq_eq_false_iff_ne.mpr h1
  have e2 : (key == "daily_report") = false := beq_eq_false_iff_ne.mpr h2
  have e3 : (key == "anomaly_detection") = false := beq_eq_false_iff_ne.mpr h3
  have e4 : (key == "production_plan") = false := beq_eq_false_iff_ne.mpr h4
  simp [placeholders, List.lookup, e1, e2, e3, e4]

theorem clickMenu_eq (E : Engine) (s : State) (i : Nat) (btn : MenuButton)
    (hbtn : s.menuButtons[i]? = some btn) :
    clickMenu E i s =
      { s with
        currentFunctionType := btn.dataFunction
        menuButtons :=
          (s.menuButtons.map fun b => { b with active := false }).set i { btn with active := true }
        functionTitle := (tableGet functionTitles (propertyKey btn.dataFunction)).domText E
        functionDescription :=
          (tableGet functionDescriptions (propertyKey btn.dataFunction)).domText E
        placeholder :=
          if (tableGet placeholders (propertyKey btn.dataFunction)).truthy then
            (tableGet placeholders (propertyKey btn.dataFunction)).text E
          else "メッセージを入力してください..." } := by
  simp only [clickMenu, hbtn, updatePlaceholder]

/-- C9 (as amended): a click on a menu button makes its `data-function` value the
current function type and marks exactly that button as active.  For each of
the four function types the title, the description and the placeholder become
that type's entries of `functionTitles`, `functionDescriptions` and
`placeholders`.  For a value that is none of the four and not the name of a
property inherited from `Object.prototype`, the placeholder becomes
"メッセージを入力してください...". -/
theorem clickMenu_selects (E : Engine) (s : State) (i : Nat) (btn : MenuButton)
    (hbtn : s.menuButtons[i]? = some btn) :
    (clickMenu E i s).currentFunctionType = btn.dataFunction ∧
    (clickMenu E i s).menuButtons.length = s.menuButtons.length ∧
    (∀ j b, (clickMenu E i s).menuButtons[j]? = some b → (b.active = true ↔ j = i)) ∧
    (∀ f, f ∈ ["chatbot", "daily_report", "anomaly_detection", "production_plan"] →
      btn.dataFunction = some f →
      functionTitles.lookup f = some (clickMenu E i s).functionTitle ∧
      functionDescriptions.lookup f = some (clickMenu E i s).functionDescription ∧
      placeholders.lookup f = some (clickMenu E i s).placeholder) ∧
    (propertyKey btn.dataFunction ∉
        ["chatbot", "daily_report", "anomaly_detection", "production_plan"] →
      propertyKey btn.dataFunction ∉ "__proto__" :: objectPrototypeFunctions →
      (clickMenu E i s).placeholder = "メッセージを入力してください...") := by
  have hlt : i < s.menuButtons.length := by
    rw [List.getElem?_eq_some_iff] at hbtn
    exact hbtn.1
  rw [clickMenu_eq E s i btn hbtn]
  refine ⟨rfl, by simp, ?_, ?_, ?_⟩
  · intro j b hb
    simp only [List.getElem?_set] at hb
    by_cases hij : i = j
    · subst hij
      simp [hlt] at hb
      subst hb
      simp
    · simp only [hij, if_false] at hb
      rw [List.getElem?_map] at hb
      cases hx : s.menuButtons[j]? with
      | none => simp [hx] at hb
      | some x =>
        simp [hx] at hb
        subst hb
        simp
        exact fun h => hij h.symm
  · intro f hf hdf
    simp only [List.mem_cons, List.mem_singleton, List.not_mem_nil, or_false] at hf
    rcases hf with hf | hf | hf | hf <;> subst hf <;> rw [hdf] <;> exact ⟨rfl, rfl, rfl⟩
  · intro h4 hproto
    have hnone := placeholders_lookup_none _ h4
    simp only [List.mem_cons, not_or] at hproto
    simp [tableGet, hnone, hproto.1, hproto.2, Looked.truthy]

theorem clickMenu_selects_witness :
    samplePage.menuButtons[2]? = some ⟨some "anomaly_detection", false⟩ ∧
    (clickMenu sampleEngine 2 samplePage).currentFunctionType = some "anomaly_detection" ∧
    (clickMenu sampleEngine 2 samplePage).functionTitle = "異常検知" ∧
    (clickMenu sampleEngine 2 samplePage).placeholder = "分析したいデータを入力してください..." := by
  have h := clickMenu_selects sampleEngine samplePage 2 ⟨some "anomaly_detection", false⟩ rfl
  have h4 := h.2.2.2.1 "anomaly_detection" (by decide) rfl
  refine ⟨rfl, h.1, ?_, ?_⟩
  · have ht := h4.1
    simp only [functionTitles, List.lookup] at ht
    exact (Option.some.inj ht).symm
  · have hp := h4.2.2
    simp only [placeholders, List.lookup] at hp
    exact (Option.some.inj hp).symm

/-- C9 (as stated) fails: `__proto__` is none of the four function types, yet
after a click on a button with that value the placeholder is the text of
`Object.prototype`, not the generic placeholder. -/
theorem clickMenu_inherited_key_counterexample :
    (clickMenu sampleEngine 0
      { samplePage with menuButtons := [⟨some "__proto__", false⟩] }).placeholder =
      "[object Object]" ∧
    (clickMenu sampleEngine 0
      { samplePage with menuButtons := [⟨some "__proto__", false⟩] }).placeholder ≠
      "メッセージを入力してください..." := by
  decide

theorem appendDocuments_shape (items : List JSValue) (s : State) :
    (∃ rows : List String, rows.length = items.length ∧
      appendDocuments items s =
        ({ s with documentList := s.documentList ++ rows.map fun t => DocNode.item t false },
          .ok ())) ∨
    (∃ s1 e, appendDocuments items s = (s1, .error e)) := by
  induction items generalizing s with
  | nil => exact Or.inl ⟨[], rfl, by simp [appendDocuments]⟩
  | cons doc rest ih =>
    unfold appendDocuments
    cases getField doc "name" with
    | error e => exact Or.inr ⟨_, e, rfl⟩
    | ok name =>
      dsimp only
      cases domText name with
      | error e => exact Or.inr ⟨_, e, rfl⟩
      | ok text =>
        dsimp only
        rcases ih { s with documentList := s.documentList ++ [.item text false] } with
          ⟨rows, hlen, hrows⟩ | ⟨s1, e, herr⟩
        · refine Or.inl ⟨text :: rows, by simp [hlen], ?_⟩
          rw [hrows]
          simp
        · exact Or.inr ⟨s1, e, herr⟩

theorem appendDocuments_typed (docs : List Document) (s : State) :
    appendDocuments (docs.map Document.toJSON) s =
      ({ s with documentList := s.documentList ++ docs.map fun d => DocNode.item d.name false },
        .ok ()) := by
  induction docs generalizing s with
  | nil => simp [appendDocuments]
  | cons d rest ih =>
    simp [appendDocuments, Document.toJSON, getField, lookup, domText, JSValue.toStr, ih]

/-- C10: whatever the outcome of the document request, `loadDocuments` leaves the
document list in one of three shapes.  A body with a non-empty `documents`
sequence gives one clickable row per document, in order, showing the
document's name; a body whose `documents` is empty or absent gives only the
paragraph "ドキュメントがありません"; a rejected request or a body that is not JSON gives
only the paragraph "ドキュメントの読み込みに失敗しました".  For every outcome the list is a
non-empty sequence of rows or one of the two paragraphs. -/
theorem loadDocuments_shapes (E : Engine) (s : State) (fields fields0 : List (String × JSValue))
    (docs : List Document) (m : String) (outcome : FetchOutcome)
    (hdocs : docs ≠ [])
    (hl : lookup "documents" fields = some (.arr (docs.map Document.toJSON)))
    (h0 : lookup "documents" fields0 = none ∨ lookup "documents" fields0 = some (.arr [])) :
    (loadDocuments E (.body (.obj fields)) s).documentList =
      docs.map (fun d => DocNode.item d.name false) ∧
    (loadDocuments E (.body (.obj fields0)) s).documentList = [.note "ドキュメントがありません"] ∧
    (loadDocuments E (.rejected m) s).documentList = [.note "ドキュメントの読み込みに失敗しました"] ∧
    (loadDocuments E (.unparsable m) s).documentList =
      [.note "ドキュメントの読み込みに失敗しました"] ∧
    ((∃ rows : List String, rows ≠ [] ∧
        (loadDocuments E outcome s).documentList = rows.map fun t => DocNode.item t false) ∨
      (loadDocuments E outcome s).documentList = [.note "ドキュメントがありません"] ∨
      (loadDocuments E outcome s).documentList = [.note "ドキュメントの読み込みに失敗しました"]) := by
  have hne : (docs.map Document.toJSON).isEmpty = false := by
    cases docs with
    | nil => exact absurd rfl hdocs
    | cons a rest => rfl
  refine ⟨?_, ?_, ?_, ?_, ?_⟩
  · simp [loadDocuments, loadDocuments.attempt, getField, hl, JSValue.truthy, lengthPositive,
      hne, appendDocuments_typed]
  · rcases h0 with h0 | h0 <;>
      simp [loadDocuments, loadDocuments.attempt, getField, h0, JSValue.truthy, lengthPositive]
  · simp [loadDocuments, loadDocuments.attempt]
  · simp [loadDocuments, loadDocuments.attempt]
  · cases outcome with
    | rejected m => exact Or.inr (Or.inr (by simp [loadDocuments, loadDocuments.attempt]))
    | unparsable m => exact Or.inr (Or.inr (by simp [loadDocuments, loadDocuments.attempt]))
    | body data =>
      simp only [loadDocuments, loadDocuments.attempt]
      cases getField data "documents" with
      | error e => exact Or.inr (Or.inr rfl)
      | ok documents =>
        cases documents with
        | none => exact Or.inr (Or.inl rfl)
        | some v =>
          dsimp only
          by_cases hv : v.truthy = true
          · simp only [hv, if_true]
            cases hlp : lengthPositive E v with
            | error e => exact Or.inr (Or.inr rfl)
            | ok b =>
              cases b with
              | false => exact Or.inr (Or.inl rfl)
              | true =>
                cases v with
                | arr items =>
                  dsimp only
                  have hitems : items ≠ [] := by
                    intro hnil
                    subst hnil
                    simp [lengthPositive] at hlp
                  rcases appendDocuments_shape items
                    { s with
                      trace := s.trace ++ [Event.request ⟨"/api/documents", "GET", [], none⟩],
                      documentList := [] } with ⟨rows, hlen, hrows⟩ | ⟨s1, e, herr⟩
                  · refine Or.inl ⟨rows, ?_, ?_⟩
                    · intro hnil
                      subst hnil
                      exact hitems (List.length_eq_zero.mp hlen.symm)
                    · rw [hrows]
                      simp
                  · rw [herr]
                    exact Or.inr (Or.inr rfl)
                | _ => exact Or.inr (Or.inr rfl)
          · simp only [hv]
            exact Or.inr (Or.inl rfl)

theorem loadDocuments_shapes_witness :
    (loadDocuments sampleEngine
      (.body (.obj [("documents", .arr ([Document.mk "就業規則.pdf", Document.mk "manual.txt"].map Document.toJSON))]))
      samplePage).documentList = [.item "就業規則.pdf" false, .item "manual.txt" false] ∧
    (loadDocuments sampleEngine (.body (.obj [("documents", .arr [])]))
      samplePage).documentList = [.note "ドキュメントがありません"] :=
  ⟨(loadDocuments_shapes sampleEngine samplePage
      [("documents", .arr ([Document.mk "就業規則.pdf", Document.mk "manual.txt"].map Document.toJSON))]
      [("documents", .arr [])] [Document.mk "就業規則.pdf", Document.mk "manual.txt"] "Failed to fetch"
      (.rejected "Failed to fetch") (by decide) rfl (Or.inr rfl)).1,
    (loadDocuments_shapes sampleEngine samplePage
      [("documents", .arr ([Document.mk "就業規則.pdf", Document.mk "manual.txt"].map Document.toJSON))]
      [("documents", .arr [])] [Document.mk "就業規則.pdf", Document.mk "manual.txt"] "Failed to fetch"
      (.rejected "Failed to fetch") (by decide) rfl (Or.inr rfl)).2.1⟩
end App
